import Mathlib

/-!
A shallow embedding of `app.py`, a single-page Streamlit form over one
BigQuery table (`Lista_bogrim`).  The pure content of the script — query
building, type coercion, surrogate-key allocation, and the session-state
transitions driven by UI events — is translated into executable Lean
definitions; the external effects (BigQuery execution, widget rendering)
appear as explicit inputs standing for their results.
-/

set_option autoImplicit false

namespace ListaBogrim

/-- `PROJECT_ID` constant of `app.py`. -/
def PROJECT_ID : String := "documents-464020"

/-- `DATASET_ID` constant of `app.py`. -/
def DATASET_ID : String := "bogrim"

/-- `TABLE_ID` constant of `app.py`. -/
def TABLE_ID : String := "v2"

/-- `TABLE_REF = f"{PROJECT_ID}.{DATASET_ID}.{TABLE_ID}"`. -/
def TABLE_REF : String := PROJECT_ID ++ "." ++ DATASET_ID ++ "." ++ TABLE_ID

/-- One entry of the BigQuery table schema: a column name and its declared
type (`field_type` is a string such as `"INT64"`, as in the BigQuery client
library). -/
structure SchemaField where
  name : String
  field_type : String
deriving DecidableEq

/-- A scalar value as bound to a BigQuery query parameter: SQL `NULL`, an
integer, a float (modelled as a rational), a boolean or a string.  Python
floats are IEEE doubles; we model the decimal values the app manipulates
exactly as rationals, which agrees with Python on all the inputs at stake. -/
inductive BQValue where
  | null
  | int (i : Int)
  | float (q : ℚ)
  | bool (b : Bool)
  | string (s : String)
deriving DecidableEq

/-- A query parameter as built by `bigquery.ScalarQueryParameter(name, type, value)`. -/
structure QueryParam where
  name : String
  param_type : String
  value : BQValue
deriving DecidableEq

/-- A row of the result set: a mapping from column name to value, in column
order (a pandas row viewed `to_dict()`-style). -/
abbrev Row := List (String × BQValue)

/-- Model of Python `str.strip()`: drop whitespace from both ends. -/
def pyStrip (s : String) : String :=
  ⟨((s.data.dropWhile Char.isWhitespace).reverse.dropWhile Char.isWhitespace).reverse⟩

/-- Model of Python `str.lower()` (ASCII case folding). -/
def pyLower (s : String) : String :=
  ⟨s.data.map Char.toLower⟩

/-- Numeric value of a list of ASCII digit characters, most significant first. -/
def digitsVal (ds : List Char) : Nat :=
  ds.foldl (fun a c => a * 10 + (c.toNat - 48)) 0

/-- Parses the exponent tail of a Python float literal: either nothing, or
`e`/`E`, an optional sign and at least one digit, with nothing after. -/
def parseExp (cs : List Char) : Option Int :=
  match cs with
  | [] => some 0
  | c :: rest =>
    if c = 'e' ∨ c = 'E' then
      let (sgn, rest2) : Int × List Char :=
        match rest with
        | '+' :: r => (1, r)
        | '-' :: r => (-1, r)
        | r => (1, r)
      let (ds, rest3) := rest2.span Char.isDigit
      if ds.isEmpty ∨ ¬ rest3.isEmpty then none
      else some (sgn * (digitsVal ds : Int))
    else none

/-- Model of Python `float(s)` on finite decimal literals, kept in exact
decimal form: surrounding whitespace is stripped, then an optional sign, a
mantissa of digits with an optional decimal point (at least one digit
overall), and an optional exponent.  The result `(m, p)` denotes the value
`m * 10 ^ p`; `none` is returned where `float(s)` raises `ValueError`.
(The special values `inf`/`nan` are outside the app's data and are not
modelled.) -/
def parseDecimal? (s : String) : Option (Int × Int) :=
  let cs := (pyStrip s).data
  let (sgn, cs1) : Int × List Char :=
    match cs with
    | '+' :: r => (1, r)
    | '-' :: r => (-1, r)
    | r => (1, r)
  let (ds1, r1) := cs1.span Char.isDigit
  let (ds2, r2) : List Char × List Char :=
    match r1 with
    | '.' :: r => r.span Char.isDigit
    | _ => ([], r1)
  if ds1.isEmpty ∧ ds2.isEmpty then none
  else
    match parseExp r2 with
    | none => none
    | some e =>
      some (sgn * (digitsVal (ds1 ++ ds2) : Int), e - (ds2.length : Int))

/-- The rational value denoted by a parsed decimal `(m, p)`, i.e. `m * 10 ^ p`:
the value Python `float(s)` yields (exactly, where the decimal is
representable). -/
def ratOfDecimal (m p : Int) : ℚ :=
  if 0 ≤ p then ((m * 10 ^ p.toNat : Int) : ℚ)
  else (m : ℚ) / ((10 ^ (-p).toNat : Int) : ℚ)

/-- Model of Python `int(float(s))`'s numeric step on a parsed decimal
`(m, p)`: truncation of `m * 10 ^ p` toward zero. -/
def truncOfDecimal (m p : Int) : Int :=
  if 0 ≤ p then m * 10 ^ p.toNat else m.tdiv (10 ^ (-p).toNat)

/-- The strings Python `str.lower()` must produce for a value to count as
true in `update_row`'s BOOL branch. -/
def truthyStrings : List String := ["true", "1", "t", "y", "yes"]

/-- The per-field coercion loop of `update_row` (`app.py` lines 135-151):
given the column's declared `field_type` and the raw form value (`none`
models Python `None`), produce the `converted_value` bound as the query
parameter. -/
def convert_value (field_type : String) (value : Option String) : BQValue :=
  match value with
  | none => .null
  | some v =>
    if pyStrip v = "" then .null
    else if field_type = "INT64" then
      match parseDecimal? v with
      | some (m, p) => .int (truncOfDecimal m p)
      | none => .null
    else if field_type = "FLOAT64" then
      match parseDecimal? v with
      | some (m, p) => .float (ratOfDecimal m p)
      | none => .null
    else if field_type = "BOOL" then
      .bool (truthyStrings.contains (pyLower v))
    else .string v

/-- `next((field.field_type for field in schema if field.name == key), "STRING")`. -/
def field_type_of (schema : List SchemaField) (key : String) : String :=
  ((schema.find? (fun f => f.name = key)).map SchemaField.field_type).getD "STRING"

/-- The `SET` clause pieces of `update_row`:
`[f"{key} = @{key}" for key in new_data.keys()]`. -/
def set_clauses_of (new_data : List (String × Option String)) : List String :=
  new_data.map (fun p => p.1 ++ " = @" ++ p.1)

/-- Outcome of `update_row` before the query executes: either an early
`(False, message)` return, or the UPDATE statement and its bound parameters
handed to `_client.query`. -/
inductive UpdateOutcome where
  | failure (msg : String)
  | statement (query : String) (params : List QueryParam)
deriving DecidableEq

/-- `update_row(_client, new_data, unique_id_column, unique_id_value, schema)`
(`app.py` lines 113-159) up to the point where the statement is executed:
`clientOk` is whether the client handle exists, `new_data` the raw form
record, and the schema lookup, coercion and parameter construction are as in
the source.  The execution itself (line 162) is external. -/
def update_row (clientOk : Bool) (new_data : List (String × Option String))
    (unique_id_column : String) (unique_id_value : BQValue)
    (schema : List SchemaField) : UpdateOutcome :=
  if !clientOk then .failure "BigQuery client not available."
  else
    match schema.find? (fun f => f.name = unique_id_column) with
    | none => .failure ("Unique ID column \x27" ++ unique_id_column ++ "\x27 not found.")
    | some unique_id_field =>
      let set_clauses := String.intercalate ", " (set_clauses_of new_data)
      let query := "UPDATE `" ++ TABLE_REF ++ "` SET " ++ set_clauses ++
        " WHERE " ++ unique_id_column ++ " = @" ++ unique_id_column ++ "_val"
      let params := new_data.map (fun p =>
        let ft := field_type_of schema p.1
        QueryParam.mk p.1 ft (convert_value ft p.2))
      .statement query
        (params ++ [QueryParam.mk (unique_id_column ++ "_val")
          unique_id_field.field_type unique_id_value])

/-- The `where_clauses` list of `get_data` (`app.py` lines 75-78): one
`LOWER(CAST(col AS STRING)) LIKE @param` predicate per filter whose value is
non-empty (Python string truthiness). -/
def get_data_where_clauses (filters : List (String × String)) : List String :=
  (filters.filter (fun p => p.2 ≠ "")).map
    (fun p => "LOWER(CAST(" ++ p.1 ++ " AS STRING)) LIKE @" ++ p.1.replace "." "_")

/-- The `query_params` list of `get_data` (`app.py` lines 79-82): for each
non-empty filter, a STRING parameter holding the lowercased value wrapped in
`%` wildcards. -/
def get_data_params (filters : List (String × String)) : List QueryParam :=
  (filters.filter (fun p => p.2 ≠ "")).map
    (fun p => QueryParam.mk (p.1.replace "." "_") "STRING"
      (.string ("%" ++ pyLower p.2 ++ "%")))

/-- The query text of `get_data` (`app.py` lines 71, 84-87): `SELECT *`,
the WHERE clause joined with ` AND ` when any predicate exists, and always
`ORDER BY id DESC LIMIT 1000` at the end. -/
def get_data_query (filters : List (String × String)) : String :=
  let base := "SELECT * FROM `" ++ TABLE_REF ++ "`"
  let q := if (get_data_where_clauses filters).isEmpty then base
    else base ++ " WHERE " ++ String.intercalate " AND " (get_data_where_clauses filters)
  q ++ " ORDER BY id DESC LIMIT 1000"

/-- The query text of `get_data` as a function of the filtered column names
alone.  This is the spec-side reading of "the value is never
string-interpolated into the query text": the text depends only on which
columns carry a non-empty filter, never on the values. -/
def query_text_of (cols : List String) : String :=
  let base := "SELECT * FROM `" ++ TABLE_REF ++ "`"
  let clauses := cols.map
    (fun c => "LOWER(CAST(" ++ c ++ " AS STRING)) LIKE @" ++ c.replace "." "_")
  (if clauses.isEmpty then base
   else base ++ " WHERE " ++ String.intercalate " AND " clauses) ++
    " ORDER BY id DESC LIMIT 1000"

/-- `get_data(_client, filters)` up to handing the statement to the client:
`none` models the early empty-DataFrame return when the client handle is
missing; otherwise the parameterized query it submits. -/
def get_data (clientOk : Bool) (filters : List (String × String)) :
    Option (String × List QueryParam) :=
  if !clientOk then none
  else some (get_data_query filters, get_data_params filters)

/-- `SELECT COALESCE(MAX(id), 0) as max_id` evaluated over the table's `id`
column: 0 on an empty table, the maximum id otherwise. -/
def coalesce_max_id (ids : List Int) : Int :=
  match ids with
  | [] => 0
  | x :: xs => xs.foldl max x

/-- `get_next_id(_client)` (`app.py` lines 45-62): `none` when the client
handle is missing; `queryResult` is the outcome of executing the MAX query
(`none` models the `except` branch, which returns `None`); on success the
returned id is `max_id + 1`. -/
def get_next_id (clientOk : Bool) (queryResult : Option Int) : Option Int :=
  if !clientOk then none
  else
    match queryResult with
    | none => none
    | some max_id => some (max_id + 1)

/-- `all_column_names = [field.name for field in schema]` (`app.py` line 188). -/
def all_column_names (schema : List SchemaField) : List String :=
  schema.map SchemaField.name

/-- `display_column_names = [col for col in all_column_names if col != "id"]`
(`app.py` line 189). -/
def display_column_names (schema : List SchemaField) : List String :=
  (all_column_names schema).filter (fun c => c ≠ "id")

/-- The sidebar filter record (`app.py` lines 202-205): one text input per
display column; `inputs` stands for the widget values. -/
def build_filters (inputs : String → String) (schema : List SchemaField) :
    List (String × String) :=
  (display_column_names schema).map (fun c => (c, inputs c))

/-- The update-form record (`app.py` lines 283-289): one text input per
display column, always a string (so never Python `None`). -/
def build_update_form_data (inputs : String → String) (schema : List SchemaField) :
    List (String × Option String) :=
  (display_column_names schema).map (fun c => (c, some (inputs c)))

/-- Python `d[k] = v` on an insertion-ordered dict represented as an
association list: overwrite the value in place when the key is present,
append the pair otherwise. -/
def dictSet {α : Type} (m : List (String × α)) (k : String) (v : α) :
    List (String × α) :=
  if m.any (fun p => p.1 = k) then
    m.map (fun p => if p.1 = k then (k, v) else p)
  else m ++ [(k, v)]

/-- Python `orig.update(deltas)`: set each key of `deltas` in turn. -/
def dictUpdate {α : Type} (orig deltas : List (String × α)) : List (String × α) :=
  deltas.foldl (fun m p => dictSet m p.1 p.2) orig

/-- Python `d[k]` on an association list: the value at the first occurrence
of the key, `none` when absent. -/
def dictGet {α : Type} (k : String) : List (String × α) → Option α
  | [] => none
  | (a, b) :: m => if k = a then some b else dictGet k m

/-- The record handed to `insert_row` by the add-form submission (`app.py`
lines 210-222): the display-column inputs, then
`new_row_data[unique_id_column] = next_id`. -/
def add_row_submit_record (inputs : String → String) (schema : List SchemaField)
    (next_id : Int) : List (String × BQValue) :=
  dictSet ((display_column_names schema).map (fun c => (c, BQValue.string (inputs c))))
    "id" (.int next_id)

/-- The `update_info` entry of the session state (`app.py` lines 271-274):
the original row's id value (`none` models a missing `id` key, on which the
script would raise) and the merged form seed. -/
structure UpdateInfo where
  unique_id_value : Option BQValue
  form_data : Row
deriving DecidableEq

/-- The session-scoped state the script reads and writes:
`st.session_state.data_df`, `st.session_state.update_info`,
`st.session_state.status_message`; `none` models an absent key. -/
structure SessionState where
  data_df : Option (List Row)
  update_info : Option UpdateInfo
  status_message : Option (Bool × String)
deriving DecidableEq

/-- The status-message block at the top of every render (`app.py` lines
172-178): the message to display this render (if any), and the state after
`del st.session_state.status_message`. -/
def render_status (st : SessionState) : Option (Bool × String) × SessionState :=
  match st.status_message with
  | some m => (some m, { st with status_message := none })
  | none => (none, st)

/-- The update-form submission handler (`app.py` lines 292-304): store the
`(success, message)` pair from `update_row` as the status message; on
success delete `update_info` and `data_df`; on failure leave them. -/
def update_form_submit (st : SessionState) (result : Bool × String) : SessionState :=
  let st1 := { st with status_message := some result }
  if result.1 then { st1 with update_info := none, data_df := none } else st1

/-- The grid-edit handler (`app.py` lines 255-274): when the
`data_editor` event carries a non-empty `edited_rows` dict, take its first
key, look the original row up in the cached `data_df`, merge the edited
deltas over the original values, and store the pending edit; otherwise the
state is untouched.  An out-of-range index would raise in `iloc`, aborting
the interaction with the state unchanged. -/
def handle_grid_edit (data_df : List Row)
    (edited_rows : List (Nat × List (String × BQValue)))
    (st : SessionState) : SessionState :=
  match edited_rows with
  | [] => st
  | (edited_row_index, edited_data_for_row) :: _ =>
    match data_df[edited_row_index]? with
    | none => st
    | some original_row =>
      { st with update_info := some (UpdateInfo.mk (dictGet "id" original_row)
        (dictUpdate original_row edited_data_for_row)) }

/-- The search/results section of the main script (`app.py` lines 231-318):
the `any(filters.values())` guard, the `data_df` session cache, the
deletion of an empty cached result, and the idle branch that clears both
the cached results and the pending edit.  `fetched` stands for the rows
returned by executing `get_data`'s query; the grid-edit and update-form
fragments inside the non-empty branch are modelled by `handle_grid_edit`
and `update_form_submit`.  Returns the new state and whether `get_data`
was invoked on this render. -/
def render_results (filters : List (String × String)) (fetched : List Row)
    (st : SessionState) : SessionState × Bool :=
  if filters.any (fun p => p.2 ≠ "") then
    let invoked := st.data_df.isNone
    let st1 := if st.data_df.isNone then { st with data_df := some fetched } else st
    if (st1.data_df.getD []).isEmpty then
      ({ st1 with data_df := none }, invoked)
    else (st1, invoked)
  else
    ({ st with data_df := none, update_info := none }, false)

/-! ### Helper lemmas -/

theorem le_foldl_max (xs : List Int) (a : Int) : a ≤ xs.foldl max a := by
  induction xs generalizing a with
  | nil => exact le_refl a
  | cons y ys ih => exact le_trans (le_max_left a y) (ih (max a y))

theorem dictGet_map_replace {α : Type} (m : List (String × α)) (k k2 : String)
    (v : α) (h : k ≠ k2) :
    dictGet k (m.map (fun p => if p.1 = k2 then (k2, v) else p)) = dictGet k m := by
  induction m with
  | nil => rfl
  | cons p m ih =>
    obtain ⟨a, b⟩ := p
    by_cases ha : a = k2
    · have hhead : ((a, b) :: m).map (fun p => if p.1 = k2 then (k2, v) else p) =
          (k2, v) :: m.map (fun p => if p.1 = k2 then (k2, v) else p) := by
        simp [ha]
      have hka : ¬ (k = a) := fun hc => h (hc.trans ha)
      rw [hhead]
      simp [dictGet, h, hka, ih]
    · have hhead : ((a, b) :: m).map (fun p => if p.1 = k2 then (k2, v) else p) =
          (a, b) :: m.map (fun p => if p.1 = k2 then (k2, v) else p) := by
        simp [ha]
      rw [hhead]
      simp [dictGet, ih]

theorem dictGet_map_replace_self {α : Type} (m : List (String × α)) (k2 : String)
    (v : α) (hmem : m.any (fun p => p.1 = k2) = true) :
    dictGet k2 (m.map (fun p => if p.1 = k2 then (k2, v) else p)) = some v := by
  induction m with
  | nil => simp at hmem
  | cons p m ih =>
    obtain ⟨a, b⟩ := p
    by_cases ha : a = k2
    · have hhead : ((a, b) :: m).map (fun p => if p.1 = k2 then (k2, v) else p) =
          (k2, v) :: m.map (fun p => if p.1 = k2 then (k2, v) else p) := by
        simp [ha]
      rw [hhead]
      simp [dictGet]
    · have hmem2 : m.any (fun p => p.1 = k2) = true := by
        simpa [ha] using hmem
      have hka : ¬ (k2 = a) := fun hc => ha hc.symm
      have hhead : ((a, b) :: m).map (fun p => if p.1 = k2 then (k2, v) else p) =
          (a, b) :: m.map (fun p => if p.1 = k2 then (k2, v) else p) := by
        simp [ha]
      rw [hhead]
      simp [dictGet, hka, ih hmem2]

theorem dictGet_append {α : Type} (l1 l2 : List (String × α)) (k : String) :
    dictGet k (l1 ++ l2) = (dictGet k l1).or (dictGet k l2) := by
  induction l1 with
  | nil => simp [dictGet]
  | cons p l1 ih =>
    obtain ⟨a, b⟩ := p
    by_cases hk : k = a <;> simp [dictGet, hk, ih]

theorem dictGet_eq_none_of_not_any {α : Type} (m : List (String × α)) (k : String)
    (h : ¬ (m.any (fun p => p.1 = k) = true)) : dictGet k m = none := by
  induction m with
  | nil => rfl
  | cons p m ih =>
    obtain ⟨a, b⟩ := p
    have ha : ¬ (a = k) := fun hc => h (by simp [hc])
    have h2 : ¬ (m.any (fun p => p.1 = k) = true) := fun hc => h (by simp [hc])
    have hka : ¬ (k = a) := fun hc => ha hc.symm
    simp [dictGet, hka, ih h2]

theorem dictGet_dictSet {α : Type} (m : List (String × α)) (k k2 : String) (v : α) :
    dictGet k (dictSet m k2 v) = if k = k2 then some v else dictGet k m := by
  unfold dictSet
  by_cases hmem : m.any (fun p => p.1 = k2) = true
  · rw [if_pos hmem]
    by_cases hk : k = k2
    · subst hk
      rw [if_pos rfl]
      exact dictGet_map_replace_self m k v hmem
    · rw [if_neg hk]
      exact dictGet_map_replace m k k2 v hk
  · rw [if_neg hmem, dictGet_append]
    by_cases hk : k = k2
    · subst hk
      rw [dictGet_eq_none_of_not_any m k hmem]
      simp [dictGet]
    · simp [dictGet, hk]

theorem dictGet_dictUpdate {α : Type} (orig deltas : List (String × α)) (k : String)
    (hnd : (deltas.map Prod.fst).Nodup) :
    dictGet k (dictUpdate orig deltas) =
      (dictGet k deltas).or (dictGet k orig) := by
  induction deltas generalizing orig with
  | nil => simp [dictUpdate, dictGet]
  | cons d ds ih =>
    obtain ⟨k1, v1⟩ := d
    have hnd1 : (k1 :: ds.map Prod.fst).Nodup := hnd
    have hcons := List.nodup_cons.mp hnd1
    have step : dictUpdate orig ((k1, v1) :: ds) =
        dictUpdate (dictSet orig k1 v1) ds := rfl
    rw [step, ih (dictSet orig k1 v1) hcons.2, dictGet_dictSet]
    by_cases hk : k = k1
    · subst hk
      have hds : dictGet k ds = none := by
        apply dictGet_eq_none_of_not_any
        intro hc
        rcases List.any_eq_true.mp hc with ⟨p, hp, hpk⟩
        rcases p with ⟨pa, pb⟩
        simp only [decide_eq_true_eq] at hpk
        exact hcons.1 (by simpa [hpk] using List.mem_map_of_mem Prod.fst hp)
      simp [dictGet, hds]
    · simp [dictGet, hk]

theorem set_clause_eq_id (c : String) (h : c ++ " = @" ++ c = "id = @id") :
    c = "id" := by
  obtain ⟨l⟩ := c
  have hd : l ++ ((" = @").data ++ l) = ("id = @id").data := by
    have h1 := congrArg String.data h
    simpa [String.data_append] using h1
  have hlen := congrArg List.length hd
  simp only [List.length_append] at hlen
  have hl2 : l.length = 2 := by
    simp at hlen
    omega
  obtain ⟨a, b, rfl⟩ := List.length_eq_two.mp hl2
  have hab : a = 'i' ∧ b = 'd' ∧ a = 'i' ∧ b = 'd' := by
    have h2 : ([a, b] : List Char) ++ ([' ', '=', ' ', '@'] ++ [a, b]) =
        ['i', 'd', ' ', '=', ' ', '@', 'i', 'd'] := hd
    simpa using h2
  rw [hab.1, hab.2.1]

/-! ### Claim theorems -/

/-- C3: `get_next_id` returns `max(id) + 1`: 1 on an empty table (via
`COALESCE(MAX(id), 0) + 1`), 42 when the maximum id is 41; when the
allocation query errors it returns the failure value `none`, never
defaulting to 1; and (ids being positive) it returns 1 only on a genuinely
empty table. -/
theorem get_next_id_spec (ids : List Int) (h1 : ∀ i ∈ ids, 1 ≤ i) :
    get_next_id true (some (coalesce_max_id [])) = some 1
    ∧ (coalesce_max_id ids = 41 → get_next_id true (some (coalesce_max_id ids)) = some 42)
    ∧ get_next_id true none = none
    ∧ (ids ≠ [] → get_next_id true (some (coalesce_max_id ids)) ≠ some 1) := by
  refine ⟨rfl, ?_, rfl, ?_⟩
  · intro h41
    simp [get_next_id, h41]
  · intro hne
    match ids, hne with
    | x :: xs, _ =>
      have hx : 1 ≤ x := h1 x (List.mem_cons_self x xs)
      have hmax : x ≤ coalesce_max_id (x :: xs) := le_foldl_max xs x
      intro hcontra
      have heq : get_next_id true (some (coalesce_max_id (x :: xs))) =
          some (coalesce_max_id (x :: xs) + 1) := rfl
      rw [heq, Option.some_inj] at hcontra
      omega

theorem get_next_id_spec_witness :
    get_next_id true (some (coalesce_max_id [41, 5])) = some 42
    ∧ get_next_id true (some (coalesce_max_id [41, 5])) ≠ some 1 :=
  ⟨(get_next_id_spec [41, 5] (by decide)).2.1 (by decide),
   (get_next_id_spec [41, 5] (by decide)).2.2.2 (by decide)⟩

/-- C5: on update-form submission, a success from `update_row` discards
both the cached result set (`data_df`) and the pending edit
(`update_info`), while a failure keeps both unchanged; either way the
`(success, message)` pair becomes the status message. -/
theorem update_form_submit_spec (st : SessionState) (msg : String) :
    (update_form_submit st (true, msg)).data_df = none
    ∧ (update_form_submit st (true, msg)).update_info = none
    ∧ (update_form_submit st (false, msg)).data_df = st.data_df
    ∧ (update_form_submit st (false, msg)).update_info = st.update_info
    ∧ (update_form_submit st (true, msg)).status_message = some (true, msg)
    ∧ (update_form_submit st (false, msg)).status_message = some (false, msg) :=
  ⟨rfl, rfl, rfl, rfl, rfl, rfl⟩

/-- C7: when the unique-id column is not the name of any schema field,
`update_row` returns a failure naming the missing column and builds no
UPDATE statement. -/
theorem update_row_missing_id_column (schema : List SchemaField)
    (new_data : List (String × Option String)) (unique_id_column : String)
    (unique_id_value : BQValue) (h : ∀ f ∈ schema, f.name ≠ unique_id_column) :
    update_row true new_data unique_id_column unique_id_value schema =
      .failure ("Unique ID column \x27" ++ unique_id_column ++ "\x27 not found.") := by
  have hfind : schema.find? (fun f => f.name = unique_id_column) = none := by
    rw [List.find?_eq_none]
    intro f hf
    simpa using h f hf
  simp [update_row, hfind]

theorem update_row_missing_id_column_witness :
    update_row true [("name", some "x")] "key" (.int 1) [SchemaField.mk "id" "INT64"] =
      .failure "Unique ID column \x27key\x27 not found." :=
  update_row_missing_id_column [SchemaField.mk "id" "INT64"] [("name", some "x")]
    "key" (.int 1) (by decide)

/-- C8: on a render where every filter value is empty, `get_data` is never
invoked and both the cached result set and the pending edit are discarded
from the session state. -/
theorem render_results_all_empty (filters : List (String × String))
    (fetched : List Row) (st : SessionState) (h : ∀ p ∈ filters, p.2 = "") :
    render_results filters fetched st =
      ({ st with data_df := none, update_info := none }, false) := by
  have hany : ¬ ((filters.any fun p => p.2 ≠ "") = true) := by
    simp only [List.any_eq_true, decide_eq_true_eq, not_exists]
    intro p hp
    exact hp.2 (h p hp.1)
  unfold render_results
  rw [if_neg hany]

theorem render_results_all_empty_witness :
    render_results [("name", ""), ("city", "")] []
        (SessionState.mk (some [[]]) (some (UpdateInfo.mk none [])) none) =
      (SessionState.mk none none none, false) :=
  render_results_all_empty [("name", ""), ("city", "")] []
    (SessionState.mk (some [[]]) (some (UpdateInfo.mk none [])) none) (by decide)

/-- C9: a status message lives exactly one render: whatever is in the
session state is displayed on this render, the state afterwards holds no
message, and a second render displays nothing. -/
theorem render_status_one_shot (st : SessionState) :
    (render_status st).1 = st.status_message
    ∧ (render_status st).2.status_message = none
    ∧ (render_status ((render_status st).2)).1 = none := by
  cases hm : st.status_message <;> simp [render_status, hm]

/-- C1: `update_row` coerces every field of the record by the column's
declared schema type before binding it as a query parameter: `None` or a
blank value gives null; INT64 parses the string as a float and truncates
(null on parse failure); FLOAT64 parses as a float (null on failure); BOOL
is true iff the lowercased string is one of true/1/t/y/yes; any other type
passes the string through.  In particular `""` as INT64 gives null, `"3.9"`
as INT64 gives 3, `"yes"` as BOOL gives true and `"Mx"` as BOOL gives
false. -/
theorem update_row_coercion_spec (schema : List SchemaField)
    (new_data : List (String × Option String)) (unique_id_column : String)
    (unique_id_value : BQValue) (fld : SchemaField)
    (hfind : schema.find? (fun f => f.name = unique_id_column) = some fld) :
    (update_row true new_data unique_id_column unique_id_value schema =
      .statement
        ("UPDATE `" ++ TABLE_REF ++ "` SET " ++
          String.intercalate ", " (set_clauses_of new_data) ++
          " WHERE " ++ unique_id_column ++ " = @" ++ unique_id_column ++ "_val")
        (new_data.map (fun p => QueryParam.mk p.1 (field_type_of schema p.1)
            (convert_value (field_type_of schema p.1) p.2)) ++
          [QueryParam.mk (unique_id_column ++ "_val") fld.field_type unique_id_value]))
    ∧ (∀ t, convert_value t none = .null)
    ∧ (∀ t v, pyStrip v = "" → convert_value t (some v) = .null)
    ∧ (∀ v m p, pyStrip v ≠ "" → parseDecimal? v = some (m, p) →
        convert_value "INT64" (some v) = .int (truncOfDecimal m p))
    ∧ (∀ v, pyStrip v ≠ "" → parseDecimal? v = none →
        convert_value "INT64" (some v) = .null)
    ∧ (∀ v m p, pyStrip v ≠ "" → parseDecimal? v = some (m, p) →
        convert_value "FLOAT64" (some v) = .float (ratOfDecimal m p))
    ∧ (∀ v, pyStrip v ≠ "" → parseDecimal? v = none →
        convert_value "FLOAT64" (some v) = .null)
    ∧ (∀ v, pyStrip v ≠ "" →
        convert_value "BOOL" (some v) = .bool (truthyStrings.contains (pyLower v)))
    ∧ (∀ t v, pyStrip v ≠ "" → t ≠ "INT64" → t ≠ "FLOAT64" → t ≠ "BOOL" →
        convert_value t (some v) = .string v)
    ∧ convert_value "INT64" (some "") = .null
    ∧ convert_value "INT64" (some "3.9") = .int 3
    ∧ convert_value "BOOL" (some "yes") = .bool true
    ∧ convert_value "BOOL" (some "Mx") = .bool false := by
  refine ⟨?_, fun t => rfl, ?_, ?_, ?_, ?_, ?_, ?_, ?_, by decide, by decide,
    by decide, by decide⟩
  · simp [update_row, hfind]
  · intro t v hb
    simp [convert_value, hb]
  · intro v m p hb hp
    simp [convert_value, hb, hp]
  · intro v hb hp
    simp [convert_value, hb, hp]
  · intro v m p hb hp
    simp [convert_value, hb, hp]
  · intro v hb hp
    simp [convert_value, hb, hp]
  · intro v hb
    simp [convert_value, hb]
  · intro t v hb h1 h2 h3
    simp [convert_value, hb, h1, h2, h3]

theorem update_row_coercion_spec_witness :
    update_row true [("age", some "3.9"), ("name", some "x")] "id" (.int 7)
        [SchemaField.mk "id" "INT64", SchemaField.mk "age" "INT64",
          SchemaField.mk "name" "STRING"] =
      .statement
        "UPDATE `documents-464020.bogrim.v2` SET age = @age, name = @name WHERE id = @id_val"
        [QueryParam.mk "age" "INT64" (.int 3),
          QueryParam.mk "name" "STRING" (.string "x"),
          QueryParam.mk "id_val" "INT64" (.int 7)] := by
  have h := (update_row_coercion_spec
    [SchemaField.mk "id" "INT64", SchemaField.mk "age" "INT64",
      SchemaField.mk "name" "STRING"]
    [("age", some "3.9"), ("name", some "x")] "id" (.int 7)
    (SchemaField.mk "id" "INT64") (by decide)).1
  rw [h]
  decide

/-- C2: the query built by `get_data` contains exactly one
`LOWER(CAST(col AS STRING)) LIKE @param` predicate per non-empty filter
entry, joined with AND; each bound parameter value is the lowercased filter
value wrapped in `%` wildcards; the query text is a function of the
filtered column names alone (values are never interpolated into it); and
the query always ends with `ORDER BY id DESC LIMIT 1000`. -/
theorem get_data_query_spec (filters : List (String × String)) :
    get_data_where_clauses filters = (filters.filter (fun p => p.2 ≠ "")).map
      (fun p => "LOWER(CAST(" ++ p.1 ++ " AS STRING)) LIKE @" ++ p.1.replace "." "_")
    ∧ get_data_params filters = (filters.filter (fun p => p.2 ≠ "")).map
      (fun p => QueryParam.mk (p.1.replace "." "_") "STRING"
        (.string ("%" ++ pyLower p.2 ++ "%")))
    ∧ get_data true filters = some (get_data_query filters, get_data_params filters)
    ∧ get_data_query filters =
      query_text_of (((filters.filter (fun p => p.2 ≠ "")).map Prod.fst))
    ∧ ∃ pre, get_data_query filters = pre ++ " ORDER BY id DESC LIMIT 1000" := by
  refine ⟨rfl, rfl, rfl, ?_, ⟨_, rfl⟩⟩
  unfold get_data_query query_text_of get_data_where_clauses
  rw [List.map_map]
  rfl

/-- C10: `get_data` itself does not enforce the empty-filter short-circuit:
on a filters map whose values are all empty it builds a query over the
whole table, with no WHERE clause, no parameters, ordered by id descending
and capped at 1000 rows. -/
theorem get_data_all_empty_full_table (filters : List (String × String))
    (h : ∀ p ∈ filters, p.2 = "") :
    get_data_where_clauses filters = []
    ∧ get_data_params filters = []
    ∧ get_data true filters =
      some ("SELECT * FROM `" ++ TABLE_REF ++ "` ORDER BY id DESC LIMIT 1000", []) := by
  have hact : filters.filter (fun p => p.2 ≠ "") = [] := by
    rw [List.filter_eq_nil_iff]
    intro p hp
    simp [h p hp]
  refine ⟨?_, ?_, ?_⟩
  · unfold get_data_where_clauses
    rw [hact]
    rfl
  · unfold get_data_params
    rw [hact]
    rfl
  · unfold get_data get_data_query get_data_params get_data_where_clauses
    rw [hact]
    rfl

theorem get_data_all_empty_full_table_witness :
    get_data true [("name", ""), ("city", "")] =
      some ("SELECT * FROM `documents-464020.bogrim.v2` ORDER BY id DESC LIMIT 1000", []) :=
  (get_data_all_empty_full_table [("name", ""), ("city", "")] (by decide)).2.2

/-- C4: the identifier column `id` never appears among the columns offered
for filtering, adding or editing (all three forms iterate over
`display_column_names`), never enters the SET clause of an update (the
update record's keys are the display columns, so `id = @id` is never among
the clause pieces), and the record handed to `insert_row` always carries
the identifier, set to the allocated next id. -/
theorem id_column_isolation (schema : List SchemaField)
    (finputs ainputs uinputs : String → String) (next_id : Int) :
    "id" ∉ display_column_names schema
    ∧ (build_filters finputs schema).map Prod.fst = display_column_names schema
    ∧ (build_update_form_data uinputs schema).map Prod.fst = display_column_names schema
    ∧ "id = @id" ∉ set_clauses_of (build_update_form_data uinputs schema)
    ∧ dictGet "id" (add_row_submit_record ainputs schema next_id) =
        some (.int next_id) := by
  have hnotmem : "id" ∉ display_column_names schema := by
    intro hmem
    have := List.of_mem_filter hmem
    simp at this
  refine ⟨hnotmem, ?_, ?_, ?_, ?_⟩
  · simp [build_filters, List.map_map]
    rw [show (Prod.fst ∘ fun c => (c, finputs c)) = id from rfl, List.map_id]
  · simp [build_update_form_data, List.map_map]
    rw [show (Prod.fst ∘ fun c : String => (c, some (uinputs c))) = id from rfl,
      List.map_id]
  · intro hmem
    unfold set_clauses_of at hmem
    rcases List.mem_map.mp hmem with ⟨p, hp, heq⟩
    have hid : p.1 = "id" := set_clause_eq_id p.1 heq
    unfold build_update_form_data at hp
    rcases List.mem_map.mp hp with ⟨c, hc, rfl⟩
    exact hnotmem (hid ▸ hc)
  · unfold add_row_submit_record
    rw [dictGet_dictSet]
    simp

/-- C6: on a grid-edit event carrying edits, exactly the first edited row
index is honored (further rows are ignored), and the stored pending edit is
the original row's values merged with that row's deltas — edited values
override the originals — together with the original row's identifier
value. -/
theorem handle_grid_edit_spec (data_df : List Row) (i : Nat)
    (d : List (String × BQValue)) (rest : List (Nat × List (String × BQValue)))
    (st : SessionState) (orig : Row)
    (hnd : (d.map Prod.fst).Nodup) (hget : data_df[i]? = some orig) :
    handle_grid_edit data_df ((i, d) :: rest) st = handle_grid_edit data_df [(i, d)] st
    ∧ (handle_grid_edit data_df ((i, d) :: rest) st).update_info =
        some (UpdateInfo.mk (dictGet "id" orig) (dictUpdate orig d))
    ∧ (handle_grid_edit data_df ((i, d) :: rest) st).data_df = st.data_df
    ∧ ∀ k, dictGet k (dictUpdate orig d) =
        (dictGet k d).or (dictGet k orig) := by
  refine ⟨rfl, ?_, ?_, fun k => dictGet_dictUpdate orig d k hnd⟩
  · simp [handle_grid_edit, hget]
  · simp [handle_grid_edit, hget]

theorem handle_grid_edit_spec_witness :
    (handle_grid_edit [[("id", BQValue.int 7), ("name", BQValue.string "a")]]
        [(0, [("name", BQValue.string "b")]), (3, [])]
        (SessionState.mk (some [[("id", BQValue.int 7), ("name", BQValue.string "a")]])
          none none)).update_info =
      some (UpdateInfo.mk (dictGet "id" [("id", BQValue.int 7), ("name", BQValue.string "a")])
        (dictUpdate [("id", BQValue.int 7), ("name", BQValue.string "a")]
          [("name", BQValue.string "b")])) :=
  (handle_grid_edit_spec [[("id", BQValue.int 7), ("name", BQValue.string "a")]]
    0 [("name", BQValue.string "b")] [(3, [])]
    (SessionState.mk (some [[("id", BQValue.int 7), ("name", BQValue.string "a")]])
      none none)
    [("id", BQValue.int 7), ("name", BQValue.string "a")]
    (by decide) (by decide)).2.1

end ListaBogrim
